import Mathlib

/-!
Shallow embedding of the `httpkit` Go package (router construction, metrics
middleware, tracing middleware, CORS middleware, status-capturing writer)
together with theorems settling the specification claims about it.

Sources embedded:
- `utils/path.go`: `invalidPaths`, `CheckInValidPath`, `StatusWriter`,
  `StatusWriter.WriteHeader`, `StatusWriter.GetStatus`, the status-message
  constants;
- `metrics/metrics.go`: `MetricsMiddleware`;
- `tracing/tracing_middleware.go`: `TracingMiddleware`;
- `httpkit.go`: `New`, `NewEmpty` (middleware registration order and server
  address), `cors`, the package-level variable `CorsAllowOrigins`,
  `Handler.Start`.
-/

namespace Httpkit

/-- An inbound HTTP request as the middlewares see it: the raw URL path
(`r.URL.Path`), the method (`r.Method`), and the route pattern that chi
resolves for it (`chi.RouteContext(...).RoutePattern()`; the empty string
when no route matched). -/
structure Request where
  urlPath : String
  method : String
  routePattern : String
deriving DecidableEq, Repr

/-- From `utils/path.go`: `var invalidPaths = []string{"/metrics", "/status",
"/ready", "/", "/*"}`. -/
def invalidPaths : List String := ["/metrics", "/status", "/ready", "/", "/*"]

/-- From `utils/path.go`: `CheckInValidPath(r)` is
`slices.Contains(invalidPaths, r.URL.Path)` — an exact string match on the
raw request path. -/
def CheckInValidPath (r : Request) : Bool := invalidPaths.contains r.urlPath

/-- From `utils/path.go`: `OKStatusMsg = "0K"` (as written in the source). -/
def OKStatusMsg : String := "0K"

/-- From `utils/path.go`: `ClientStatusMsg = "Client Error"`. -/
def ClientStatusMsg : String := "Client Error"

/-- From `utils/path.go`: `ServerStatusMsg = "Server Error"`. -/
def ServerStatusMsg : String := "Server Error"

/-- From `utils/path.go`: `DefaultrStatusMsg = "Unhandled Status"`. -/
def DefaultrStatusMsg : String := "Unhandled Status"

/-- The OpenTelemetry status codes used by `StatusWriter.GetStatus`
(`go.opentelemetry.io/otel/codes`). -/
inductive OtelCode
  | Unset
  | Error
  | Ok
deriving DecidableEq, Repr

/-- From `utils/path.go`: `StatusWriter` wraps an `http.ResponseWriter` and
records the last status code written; only the recorded code matters here. -/
structure StatusWriter where
  StatusCode : Int
deriving DecidableEq, Repr

/-- From `utils/path.go`: `WriteHeader` stores the code in the writer (and
forwards it to the wrapped writer, which has no observable state here). -/
def StatusWriter.WriteHeader (sw : StatusWriter) (code : Int) : StatusWriter :=
  { sw with StatusCode := code }

/-- From `utils/path.go`: `GetStatus` classifies the stored status code into
an otel code and a human-readable message. -/
def StatusWriter.GetStatus (sw : StatusWriter) : OtelCode × String :=
  if 200 ≤ sw.StatusCode ∧ sw.StatusCode < 300 then (OtelCode.Ok, OKStatusMsg)
  else if 400 ≤ sw.StatusCode ∧ sw.StatusCode < 500 then (OtelCode.Error, ClientStatusMsg)
  else if 500 ≤ sw.StatusCode then (OtelCode.Error, ServerStatusMsg)
  else (OtelCode.Unset, DefaultrStatusMsg)

/-- Both middlewares build the writer as
`&utils.StatusWriter{ResponseWriter: w, StatusCode: http.StatusOK}`:
the stored code defaults to 200. -/
def initialStatusWriter : StatusWriter := { StatusCode := 200 }

/-- The status writer after the inner handler ran: a handler is modelled by
the list of `WriteHeader` calls it makes on the wrapped writer (the empty
list models a handler that never calls `WriteHeader`). -/
def finalWriter (writes : List Int) : StatusWriter :=
  writes.foldl StatusWriter.WriteHeader initialStatusWriter

/-- The observable effect of `metrics.MetricsMiddleware` on one request:
which label triples `(path, method, status)` were passed to
`requestsTotalByEndpointAndStatus.WithLabelValues(...).Inc()` and to
`requestDurationByEndpointAndStatus.WithLabelValues(...).Observe(...)`,
and whether the inner handler ran. -/
structure MetricsEvents where
  counterIncs : List (String × String × String)
  histObserves : List (String × String × String)
  handlerRan : Bool
deriving DecidableEq, Repr

/-- From `metrics/metrics.go`: `MetricsMiddleware`. On an excluded path it
calls the next handler and returns with no instrumentation; otherwise it
wraps the writer, runs the handler, and emits one counter increment and one
histogram observation labelled with the resolved route pattern, the method,
and `fmt.Sprintf("%d", ww.StatusCode)`. -/
def MetricsMiddleware (next : Request → List Int) (r : Request) : MetricsEvents :=
  if CheckInValidPath r then
    { counterIncs := [], histObserves := [], handlerRan := (next r).length = (next r).length }
  else
    let ww := finalWriter (next r)
    let statusCode := toString ww.StatusCode
    let label := (r.routePattern, r.method, statusCode)
    { counterIncs := [label], histObserves := [label], handlerRan := true }

/-- The individual span operations performed by `tracing.TracingMiddleware`. -/
inductive TraceEvent
  | spanStart (name : String)
  | setStatus (code : OtelCode) (msg : String)
  | setName (name : String)
  | setAttributes (extraPath : String) (statusCode : Int) (method : String)
  | spanEnd
deriving DecidableEq, Repr

/-- True exactly on `TraceEvent.spanStart` events. -/
def isSpanStart : TraceEvent → Bool
  | TraceEvent.spanStart _ => true
  | _ => false

/-- True exactly on `TraceEvent.spanEnd` events. -/
def isSpanEnd : TraceEvent → Bool
  | TraceEvent.spanEnd => true
  | _ => false

/-- From `tracing/tracing_middleware.go`: `TracingMiddleware`. The inner
handler either returns its list of `WriteHeader` calls or panics with a
value (`Except.error`). On an excluded path the middleware delegates with no
span. Otherwise it starts a span named after the raw path, defers
`span.End()`, runs the handler, and on normal return sets the span status
(from `GetStatus`), renames the span to the route pattern and sets the
attributes; the deferred `span.End()` runs on every exit, and a handler
panic propagates past it. Returns the span operations in order, paired with
the outcome seen by the caller. -/
def TracingMiddleware (next : Request → Except String (List Int)) (r : Request) :
    List TraceEvent × Except String Unit :=
  if CheckInValidPath r then
    ([], (next r).map fun _ => ())
  else
    match next r with
    | Except.ok writes =>
        let ww := finalWriter writes
        let st := ww.GetStatus
        ([TraceEvent.spanStart r.urlPath,
          TraceEvent.setStatus st.1 st.2,
          TraceEvent.setName r.routePattern,
          TraceEvent.setAttributes r.urlPath ww.StatusCode r.method,
          TraceEvent.spanEnd], Except.ok ())
    | Except.error p =>
        ([TraceEvent.spanStart r.urlPath, TraceEvent.spanEnd], Except.error p)

/-- The chi middlewares registered by `New` / `NewEmpty`, identified by name. -/
inductive MiddlewareId
  | StripSlashes
  | Metrics
  | Tracing
  | Cors
  | RealIP
deriving DecidableEq, Repr

/-- From `httpkit.go`, `New`: `router.Use` calls in source order —
`StripSlashes`; `metrics.MetricsMiddleware` if `metricsEnable`;
`tracing.TracingMiddleware` if `tracerEnable`; `cors` if `setCors`;
`chimiddleware.RealIP`. -/
def NewMiddlewares (tracerEnable metricsEnable setCors : Bool) : List MiddlewareId :=
  [MiddlewareId.StripSlashes]
    ++ (if metricsEnable then [MiddlewareId.Metrics] else [])
    ++ (if tracerEnable then [MiddlewareId.Tracing] else [])
    ++ (if setCors then [MiddlewareId.Cors] else [])
    ++ [MiddlewareId.RealIP]

/-- From `httpkit.go`, `NewEmpty`: `router.Use` calls in source order —
`StripSlashes`; `tracing.TracingMiddleware` if `tracerEnable`;
`metrics.MetricsMiddleware` if `metricsEnable`; `chimiddleware.RealIP`.
(`NewEmpty` has no CORS parameter and never registers `cors`.) -/
def NewEmptyMiddlewares (tracerEnable metricsEnable : Bool) : List MiddlewareId :=
  [MiddlewareId.StripSlashes]
    ++ (if tracerEnable then [MiddlewareId.Tracing] else [])
    ++ (if metricsEnable then [MiddlewareId.Metrics] else [])
    ++ [MiddlewareId.RealIP]

/-- The middleware chain the specification claims for every construction:
trailing-slash normalization, then metrics if enabled, then tracing if
enabled, then CORS if enabled, then client-IP normalization. Written from
the words of the spec, to be compared with the source-derived chains. -/
def specClaimedMiddlewares (metricsEnable tracerEnable corsEnable : Bool) : List MiddlewareId :=
  [MiddlewareId.StripSlashes]
    ++ (if metricsEnable then [MiddlewareId.Metrics] else [])
    ++ (if tracerEnable then [MiddlewareId.Tracing] else [])
    ++ (if corsEnable then [MiddlewareId.Cors] else [])
    ++ [MiddlewareId.RealIP]

/-- The process-wide mutable state of the package: `httpkit.go` declares
`var CorsAllowOrigins string` at package level. -/
structure ProcessState where
  CorsAllowOrigins : String
deriving DecidableEq, Repr

/-- From `httpkit.go`, `New`: the only write to the global —
`if setCors { CorsAllowOrigins = corsAllowOrigins; router.Use(cors) }`.
Returns the process state after the construction. -/
def NewSetGlobal (setCors : Bool) (corsAllowOrigins : String) (st : ProcessState) : ProcessState :=
  if setCors then { CorsAllowOrigins := corsAllowOrigins } else st

/-- The observable effect of the `cors` middleware on one request: the
response headers it sets, the status it writes itself (if any), and whether
it invoked the wrapped handler. -/
structure CorsOutcome where
  headers : List (String × String)
  wroteStatus : Option Int
  nextInvoked : Bool
deriving DecidableEq, Repr

/-- From `httpkit.go`: the `cors` middleware closure. It reads the
package-level `CorsAllowOrigins` at request time, sets the four headers,
then on `OPTIONS` writes 204 and returns without calling the handler, and
otherwise calls the handler. It never inspects the request path. -/
def cors (st : ProcessState) (r : Request) : CorsOutcome :=
  let hs := [("Access-Control-Allow-Origin", st.CorsAllowOrigins),
             ("Access-Control-Allow-Methods", "GET, POST, PUT, DELETE, OPTIONS"),
             ("Access-Control-Allow-Headers", "Content-Type, Authorization, User-Address, Token"),
             ("Access-Control-Max-Age", "3600")]
  if r.method = "OPTIONS" then
    { headers := hs, wroteStatus := some 204, nextInvoked := false }
  else
    { headers := hs, wroteStatus := none, nextInvoked := true }

/-- The origin value a router's `cors` middleware emits in
`Access-Control-Allow-Origin` for a request served while the process state
is `st`: the closure reads the global `CorsAllowOrigins` directly. -/
def corsEmittedOrigin (st : ProcessState) : String := st.CorsAllowOrigins

/-- Errors returned by `http.Server.ListenAndServe`, as `Handler.Start`
distinguishes them: `http.ErrServerClosed` or anything else. -/
inductive GoError
  | ErrServerClosed
  | other (msg : String)
deriving DecidableEq, Repr

/-- From `httpkit.go`, `Handler.Start`: given the error returned by
`h.server.ListenAndServe()` (`none` models Go `nil`), return it when it is
non-nil and not `http.ErrServerClosed`, and `nil` otherwise. -/
def HandlerStart (err : Option GoError) : Option GoError :=
  if err ≠ none ∧ err ≠ some GoError.ErrServerClosed then err else none

/-- A Go value passed to `fmt.Sprintf` as the argument of a `%d` verb:
`New` passes an `int` port, `NewEmpty` passes its `bool` first parameter. -/
inductive GoValue
  | int (n : Int)
  | bool (b : Bool)
deriving DecidableEq, Repr

/-- What Go `fmt.Sprintf("%d", v)` yields: the decimal rendering for an
integer, and the bad-verb diagnostic `%!d(bool=...)` for a bool. -/
def goSprintfVerbD : GoValue → String
  | GoValue.int n => toString n
  | GoValue.bool b => "%!d(bool=" ++ (if b then "true" else "false") ++ ")"

/-- From `httpkit.go`, `New`: the server address
`fmt.Sprintf(":%d", port)` with `port int`. -/
def NewAddr (port : Int) : String := ":" ++ goSprintfVerbD (GoValue.int port)

/-- From `httpkit.go`, `NewEmpty`: the server address
`fmt.Sprintf(":%d", port)` with `port bool`. -/
def NewEmptyAddr (port : Bool) : String := ":" ++ goSprintfVerbD (GoValue.bool port)

/-- A well-formed listen address of the shape a caller-chosen numeric port
produces: a colon followed by a nonempty run of decimal digits. -/
def isWellFormedPortAddr (s : String) : Bool :=
  match s.toList with
  | ':' :: rest => !rest.isEmpty && rest.all Char.isDigit
  | _ => false

/-- Example instrumented request: `GET /users/42` resolving to route
pattern `/users/{id}`. -/
def exampleUsersReq : Request :=
  { urlPath := "/users/42", method := "GET", routePattern := "/users/{id}" }

/-- Example handler that ends the response with status 404. -/
def exampleNotFoundHandler : Request → List Int := fun _ => [404]

/-- Example handler that panics (for the tracing span-closure claim). -/
def examplePanickingHandler : Request → Except String (List Int) :=
  fun _ => Except.error "boom"

/-- Example `OPTIONS` preflight request on an infrastructure path. -/
def exampleOptionsReq : Request :=
  { urlPath := "/status", method := "OPTIONS", routePattern := "/status" }

/-- Example request that matched no route: chi leaves the route pattern
empty and the not-found handler ends the response with 404. -/
def exampleUnmatchedReq : Request :=
  { urlPath := "/no/such/route", method := "GET", routePattern := "" }

/-- The middleware chain for `NewEmpty` as the amended claim states it:
trailing-slash normalization first, then tracing if enabled, then metrics
if enabled, then client-IP normalization last, with no CORS stage. Written
from the amended claim's words, to be compared with the source-derived
chain. -/
def specAmendedEmptyMiddlewares (tracerEnable metricsEnable : Bool) : List MiddlewareId :=
  [MiddlewareId.StripSlashes]
    ++ (if tracerEnable then [MiddlewareId.Tracing] else [])
    ++ (if metricsEnable then [MiddlewareId.Metrics] else [])
    ++ [MiddlewareId.RealIP]

-- Basic bridge lemma: the source's `slices.Contains` check agrees with
-- list membership on the raw path.
lemma checkInValidPath_iff (r : Request) :
    CheckInValidPath r = true ↔ r.urlPath ∈ invalidPaths := by
  simp [CheckInValidPath]

lemma checkInValidPath_claim_list (r : Request) :
    CheckInValidPath r = true ↔ r.urlPath ∈ ["/", "/status", "/ready", "/metrics", "/*"] := by
  rw [checkInValidPath_iff]
  simp [invalidPaths]
  tauto

/-- C1: for every request whose raw URL path is one of the five exact
strings "/", "/status", "/ready", "/metrics", "/*", the metrics middleware
and the tracing middleware delegate with zero counter increments, zero
histogram observations and zero spans; for every other raw path the metrics
middleware emits exactly one counter increment and one histogram
observation and the tracing middleware emits exactly one span; and the
exclusion decision depends only on the raw path (exact string match), not
on the resolved route pattern. -/
theorem c1_infrastructure_path_exclusion (r : Request)
    (nextM : Request → List Int) (nextT : Request → Except String (List Int)) :
    (r.urlPath ∈ ["/", "/status", "/ready", "/metrics", "/*"] →
      (MetricsMiddleware nextM r).counterIncs.length = 0 ∧
      (MetricsMiddleware nextM r).histObserves.length = 0 ∧
      (TracingMiddleware nextT r).1.countP isSpanStart = 0) ∧
    (r.urlPath ∉ ["/", "/status", "/ready", "/metrics", "/*"] →
      (MetricsMiddleware nextM r).counterIncs.length = 1 ∧
      (MetricsMiddleware nextM r).histObserves.length = 1 ∧
      (TracingMiddleware nextT r).1.countP isSpanStart = 1) ∧
    (∀ r2 : Request, r2.urlPath = r.urlPath →
      CheckInValidPath r2 = CheckInValidPath r) := by
  refine ⟨?_, ?_, ?_⟩
  · intro hmem
    have h : CheckInValidPath r = true := (checkInValidPath_claim_list r).mpr hmem
    refine ⟨?_, ?_, ?_⟩
    · simp [MetricsMiddleware, h]
    · simp [MetricsMiddleware, h]
    · simp [TracingMiddleware, h]
  · intro hmem
    have h : CheckInValidPath r = false := by
      cases hc : CheckInValidPath r
      · rfl
      · exact absurd ((checkInValidPath_claim_list r).mp hc) hmem
    refine ⟨?_, ?_, ?_⟩
    · simp [MetricsMiddleware, h]
    · simp [MetricsMiddleware, h]
    · cases hnext : nextT r <;>
        simp [TracingMiddleware, h, hnext, isSpanStart, List.countP_cons]
  · intro r2 h2
    simp [CheckInValidPath, h2]

/-- C1 witness: on the excluded path "/status" no metric labels and no span
are emitted; on the instrumented path "/users/42" exactly one counter
increment and one span are emitted. -/
theorem c1_witness :
    (MetricsMiddleware exampleNotFoundHandler exampleOptionsReq).counterIncs.length = 0 ∧
    (TracingMiddleware examplePanickingHandler exampleOptionsReq).1.countP isSpanStart = 0 ∧
    (MetricsMiddleware exampleNotFoundHandler exampleUsersReq).counterIncs.length = 1 ∧
    (TracingMiddleware examplePanickingHandler exampleUsersReq).1.countP isSpanStart = 1 := by
  have hex := c1_infrastructure_path_exclusion exampleOptionsReq
    exampleNotFoundHandler examplePanickingHandler
  have hin := c1_infrastructure_path_exclusion exampleUsersReq
    exampleNotFoundHandler examplePanickingHandler
  exact ⟨(hex.1 (by decide)).1, (hex.1 (by decide)).2.2,
    (hin.2.1 (by decide)).1, (hin.2.1 (by decide)).2.2⟩

/-- C2: for every instrumented request, both metric label lists are exactly
the single triple (resolved route pattern, method, final status code as
decimal string); the pattern is used verbatim, so an empty pattern yields
the empty string label. -/
theorem c2_metrics_label_triple (r : Request) (next : Request → List Int)
    (h : CheckInValidPath r = false) :
    (MetricsMiddleware next r).counterIncs =
      [(r.routePattern, r.method, toString (finalWriter (next r)).StatusCode)] ∧
    (MetricsMiddleware next r).histObserves =
      [(r.routePattern, r.method, toString (finalWriter (next r)).StatusCode)] := by
  simp [MetricsMiddleware, h]

/-- C2 witness: a GET to /users/42 resolving to pattern /users/{id} that
ends with 404 is labelled ("/users/{id}", "GET", "404"), and an unmatched
GET ending with 404 is labelled ("", "GET", "404"). -/
theorem c2_witness :
    CheckInValidPath exampleUsersReq = false ∧
    (MetricsMiddleware exampleNotFoundHandler exampleUsersReq).counterIncs =
      [("/users/{id}", "GET", "404")] ∧
    (MetricsMiddleware exampleNotFoundHandler exampleUsersReq).histObserves =
      [("/users/{id}", "GET", "404")] ∧
    (MetricsMiddleware exampleNotFoundHandler exampleUnmatchedReq).counterIncs =
      [("", "GET", "404")] := by
  refine ⟨by decide, ?_, ?_, ?_⟩
  · rw [(c2_metrics_label_triple exampleUsersReq exampleNotFoundHandler (by decide)).1]
    decide
  · rw [(c2_metrics_label_triple exampleUsersReq exampleNotFoundHandler (by decide)).2]
    decide
  · rw [(c2_metrics_label_triple exampleUnmatchedReq exampleNotFoundHandler (by decide)).1]
    decide

/-- C3: the stored status code is classified as the success tier on
[200,300), the client-error tier on [400,500), the server-error tier on
[500,∞), and the unclassified tier otherwise; and a handler that never
calls WriteHeader leaves the default 200, which classifies as success. -/
theorem c3_status_classification (c : Int) :
    (200 ≤ c ∧ c < 300 → StatusWriter.GetStatus ⟨c⟩ = (OtelCode.Ok, OKStatusMsg)) ∧
    (400 ≤ c ∧ c < 500 → StatusWriter.GetStatus ⟨c⟩ = (OtelCode.Error, ClientStatusMsg)) ∧
    (500 ≤ c → StatusWriter.GetStatus ⟨c⟩ = (OtelCode.Error, ServerStatusMsg)) ∧
    (¬(200 ≤ c ∧ c < 300) → ¬(400 ≤ c ∧ c < 500) → ¬(500 ≤ c) →
      StatusWriter.GetStatus ⟨c⟩ = (OtelCode.Unset, DefaultrStatusMsg)) ∧
    ((finalWriter []).StatusCode = 200 ∧
      StatusWriter.GetStatus (finalWriter []) = (OtelCode.Ok, OKStatusMsg)) := by
  refine ⟨?_, ?_, ?_, ?_, by decide⟩ <;>
    · intros
      unfold StatusWriter.GetStatus
      dsimp only
      split_ifs <;> first | rfl | omega

/-- C3 witness: 250 classifies as success, 404 as client error, 503 as
server error, 100 as unclassified. -/
theorem c3_witness :
    StatusWriter.GetStatus ⟨250⟩ = (OtelCode.Ok, OKStatusMsg) ∧
    StatusWriter.GetStatus ⟨404⟩ = (OtelCode.Error, ClientStatusMsg) ∧
    StatusWriter.GetStatus ⟨503⟩ = (OtelCode.Error, ServerStatusMsg) ∧
    StatusWriter.GetStatus ⟨100⟩ = (OtelCode.Unset, DefaultrStatusMsg) :=
  ⟨(c3_status_classification 250).1 (by decide),
   (c3_status_classification 404).2.1 (by decide),
   (c3_status_classification 503).2.2.1 (by decide),
   (c3_status_classification 100).2.2.2.1 (by decide) (by decide) (by decide)⟩

/-- C4 (code bug evaluation): the source constant `OKStatusMsg` is the
string "0K" (digit zero followed by K), not "OK"; consequently the status
message the tracing middleware attaches for a 200 response is "0K". -/
theorem c4_ok_message_misspelled :
    OKStatusMsg = "0K" ∧ OKStatusMsg ≠ "OK" ∧
    (TracingMiddleware (fun _ => Except.ok [200]) exampleUsersReq).1.contains
      (TraceEvent.setStatus OtelCode.Ok "0K") = true := by
  refine ⟨rfl, by decide, by decide⟩

/-- C5 counterexample: with tracing and metrics both enabled, `NewEmpty`
registers tracing before metrics, so its chain differs from the claimed
order (trailing-slash, metrics, tracing, client-IP). -/
theorem c5_counterexample :
    NewEmptyMiddlewares true true ≠ specClaimedMiddlewares true true false ∧
    NewEmptyMiddlewares true true =
      [MiddlewareId.StripSlashes, MiddlewareId.Tracing,
       MiddlewareId.Metrics, MiddlewareId.RealIP] ∧
    specClaimedMiddlewares true true false =
      [MiddlewareId.StripSlashes, MiddlewareId.Metrics,
       MiddlewareId.Tracing, MiddlewareId.RealIP] := by
  decide

/-- C5 amended: `New` follows the claimed order (trailing-slash, metrics if
enabled, tracing if enabled, CORS if enabled, client-IP), but `NewEmpty`
applies tracing before metrics and has no CORS stage. -/
theorem c5_amended_order :
    (∀ tracerEnable metricsEnable setCors : Bool,
      NewMiddlewares tracerEnable metricsEnable setCors =
        specClaimedMiddlewares metricsEnable tracerEnable setCors) ∧
    (∀ tracerEnable metricsEnable : Bool,
      NewEmptyMiddlewares tracerEnable metricsEnable =
        specAmendedEmptyMiddlewares tracerEnable metricsEnable) ∧
    (∀ tracerEnable metricsEnable : Bool,
      MiddlewareId.Cors ∉ NewEmptyMiddlewares tracerEnable metricsEnable) := by
  refine ⟨by decide, by decide, by decide⟩

/-- C6: when CORS is enabled, every request gets the four fixed headers
(origin from the process-global configuration), an OPTIONS request gets
status 204 without the wrapped handler running, and any other method runs
the wrapped handler with no status written by the middleware itself. -/
theorem c6_cors_behavior (st : ProcessState) (r : Request) :
    (cors st r).headers =
      [("Access-Control-Allow-Origin", st.CorsAllowOrigins),
       ("Access-Control-Allow-Methods", "GET, POST, PUT, DELETE, OPTIONS"),
       ("Access-Control-Allow-Headers", "Content-Type, Authorization, User-Address, Token"),
       ("Access-Control-Max-Age", "3600")] ∧
    (r.method = "OPTIONS" →
      (cors st r).wroteStatus = some 204 ∧ (cors st r).nextInvoked = false) ∧
    (r.method ≠ "OPTIONS" →
      (cors st r).wroteStatus = none ∧ (cors st r).nextInvoked = true) := by
  by_cases h : r.method = "OPTIONS" <;> simp [cors, h]

/-- C6 witness: an OPTIONS preflight on the infrastructure path /status
gets 204, its handler never runs and the origin header carries the
configured origin; a GET request runs the handler. -/
theorem c6_witness :
    (cors ⟨"https://app.example"⟩ exampleOptionsReq).wroteStatus = some 204 ∧
    (cors ⟨"https://app.example"⟩ exampleOptionsReq).nextInvoked = false ∧
    (cors ⟨"https://app.example"⟩ exampleOptionsReq).headers.contains
      ("Access-Control-Allow-Origin", "https://app.example") = true ∧
    (cors ⟨"https://app.example"⟩ exampleUsersReq).nextInvoked = true := by
  have hopt := c6_cors_behavior ⟨"https://app.example"⟩ exampleOptionsReq
  have hget := c6_cors_behavior ⟨"https://app.example"⟩ exampleUsersReq
  refine ⟨(hopt.2.1 rfl).1, (hopt.2.1 rfl).2, ?_, (hget.2.2 (by decide)).2⟩
  rw [hopt.1]
  decide

/-- C7: for every instrumented request, the tracing middleware ends the
span exactly once on every exit path: once when the handler returns
normally and once when the handler panics, in which case the panic still
propagates to the caller. -/
theorem c7_span_always_closed (r : Request) (next : Request → Except String (List Int))
    (h : CheckInValidPath r = false) :
    (TracingMiddleware next r).1.countP isSpanEnd = 1 ∧
    (∀ p, next r = Except.error p → (TracingMiddleware next r).2 = Except.error p) ∧
    (∀ writes, next r = Except.ok writes → (TracingMiddleware next r).2 = Except.ok ()) := by
  refine ⟨?_, ?_, ?_⟩
  · cases hnext : next r <;>
      simp [TracingMiddleware, h, hnext, isSpanEnd, List.countP_cons]
  · intro p hp
    simp [TracingMiddleware, h, hp]
  · intro writes hw
    simp [TracingMiddleware, h, hw]

/-- C7 witness: a handler that panics on an instrumented request still gets
its span ended exactly once, and the panic propagates. -/
theorem c7_witness :
    CheckInValidPath exampleUsersReq = false ∧
    (TracingMiddleware examplePanickingHandler exampleUsersReq).1.countP isSpanEnd = 1 ∧
    (TracingMiddleware examplePanickingHandler exampleUsersReq).2 = Except.error "boom" := by
  have hth := c7_span_always_closed exampleUsersReq examplePanickingHandler (by decide)
  exact ⟨by decide, hth.1, hth.2.1 "boom" rfl⟩

/-- C8 counterexample: the CORS origin is a process-wide mutable global.
After a first construction with origin https://a.example, a second
construction with origin https://b.example changes the origin every
router's cors middleware emits — including the first router's — so the
first router's policy is not immutable. -/
theorem c8_counterexample :
    corsEmittedOrigin (NewSetGlobal true "https://a.example" ⟨""⟩) = "https://a.example" ∧
    corsEmittedOrigin (NewSetGlobal true "https://b.example"
      (NewSetGlobal true "https://a.example" ⟨""⟩)) = "https://b.example" ∧
    corsEmittedOrigin (NewSetGlobal true "https://b.example"
      (NewSetGlobal true "https://a.example" ⟨""⟩)) ≠ "https://a.example" ∧
    (cors (NewSetGlobal true "https://b.example"
      (NewSetGlobal true "https://a.example" ⟨""⟩)) exampleUsersReq).headers.contains
      ("Access-Control-Allow-Origin", "https://a.example") = false := by
  decide

/-- C8 amended: the origin emitted in Access-Control-Allow-Origin is the
current value of the process-global CorsAllowOrigins: it equals the origin
of the most recent construction with CORS enabled, a construction with
CORS disabled leaves it unchanged, and every router's cors middleware reads
that shared global at request time. -/
theorem c8_amended_global_origin (origin : String) (st : ProcessState) (r : Request) :
    corsEmittedOrigin (NewSetGlobal true origin st) = origin ∧
    NewSetGlobal false origin st = st ∧
    (cors st r).headers.head? =
      some ("Access-Control-Allow-Origin", corsEmittedOrigin st) := by
  refine ⟨rfl, by simp [NewSetGlobal], ?_⟩
  by_cases h : r.method = "OPTIONS" <;> simp [cors, corsEmittedOrigin, h]

/-- C9: Start returns the listen-and-serve error exactly when it is non-nil
and different from http.ErrServerClosed; it returns nil both for
ErrServerClosed (the concurrent-shutdown race) and for a nil error. -/
theorem c9_start_error_filtering (err : Option GoError) :
    (err ≠ none → err ≠ some GoError.ErrServerClosed → HandlerStart err = err) ∧
    HandlerStart (some GoError.ErrServerClosed) = none ∧
    HandlerStart none = none := by
  refine ⟨?_, by decide, by decide⟩
  intro h1 h2
  simp [HandlerStart, h1, h2]

/-- C9 witness: a bind failure is returned as-is, while ErrServerClosed is
swallowed and reported as normal completion. -/
theorem c9_witness :
    HandlerStart (some (GoError.other "listen tcp :80: address already in use")) =
      some (GoError.other "listen tcp :80: address already in use") ∧
    HandlerStart (some GoError.ErrServerClosed) = none :=
  ⟨(c9_start_error_filtering (some (GoError.other "listen tcp :80: address already in use"))).1
      (by decide) (by decide),
   (c9_start_error_filtering (some GoError.ErrServerClosed)).2.1⟩

/-- C10: NewEmpty formats its bool first parameter with the %d verb, so its
listen address is the bad-verb diagnostic ":%!d(bool=true)" or
":%!d(bool=false)" and never a well-formed ":<decimal port>" address,
whereas New's integer port yields ":<port>". -/
theorem c10_newempty_addr_malformed :
    (∀ b : Bool, isWellFormedPortAddr (NewEmptyAddr b) = false) ∧
    NewEmptyAddr true = ":%!d(bool=true)" ∧
    NewEmptyAddr false = ":%!d(bool=false)" ∧
    (∀ n : Int, NewAddr n = ":" ++ toString n) ∧
    isWellFormedPortAddr ":8080" = true := by
  refine ⟨by decide, by decide, by decide, fun n => rfl, by decide⟩

end Httpkit
